import Mathlib

/-!
A shallow embedding of `asrank/asrank.py` (bgpkit/pyasrank): the `AsRank`
session object, its caches, and the operations built on top of them.  The
remote ASRank GraphQL service is modelled as an oracle (`Remote`) fixed for
the session; every `_send_request` becomes one increment of the
`queries_sent` counter plus one oracle consultation.  Dates are encoded as
`YYYYMMDD` numerals, which orders them exactly like the ISO date strings
the API compares.
-/

namespace PyAsRank

/-- A Python dictionary key as used by the session caches: the batch engine
stores entity descriptors under `str(asn)` keys, but several operations look
the cache up with the raw (possibly `int`) argument, so keys must
distinguish an integer from its string form. -/
inductive PyKey where
  | pint : Nat → PyKey
  | pstr : String → PyKey
deriving DecidableEq, Repr

/-- Python `str(asn)`. -/
def PyKey.strOf : PyKey → String
  | .pint n => toString n
  | .pstr s => s

/-- The Python exception the embedded operations can raise. -/
inductive PyErr where
  | keyError
deriving DecidableEq, Repr

/-- `d[k]` for a Python dict modelled as an association list; `none` means
the key is absent (a `KeyError` site when the value is demanded). -/
def dget {κ α : Type} [DecidableEq κ] : List (κ × α) → κ → Option α
  | [], _ => none
  | (k', v) :: rest, k => if k' = k then some v else dget rest k

/-- Python `k in d`. -/
def dmem {κ α : Type} [DecidableEq κ] (d : List (κ × α)) (k : κ) : Bool :=
  (dget d k).isSome

/-- Python `d[k] = v`: update in place, or append a new binding. -/
def dset {κ α : Type} [DecidableEq κ] : List (κ × α) → κ → α → List (κ × α)
  | [], k, v => [(k, v)]
  | (k', v') :: rest, k, v =>
    if k' = k then (k, v) :: rest else (k', v') :: dset rest k v

/-- The `asnDegree` sub-record of an entity response node (lines 155-162 of
the query); every field may be `null` in the raw GraphQL response. -/
structure RawDegree where
  provider : Option Nat
  peer : Option Nat
  customer : Option Nat
  total : Option Nat
  transit : Option Nat
  sibling : Option Nat
deriving DecidableEq, Repr

/-- Lines 175-178: `degree["provider"] = degree["provider"] or 0`, and the
same for `customer`, `peer` and `sibling`.  Only those four fields are
touched; `total` and `transit` are left exactly as received. -/
def normalizeDegree (d : RawDegree) : RawDegree :=
  { d with provider := some (d.provider.getD 0),
           customer := some (d.customer.getD 0),
           peer := some (d.peer.getD 0),
           sibling := some (d.sibling.getD 0) }

structure Country where
  iso : Option String
  name : Option String
deriving DecidableEq, Repr

structure Organization where
  orgId : String
  orgName : String
  country : Option Country
deriving DecidableEq, Repr

/-- One node of an `asns` batch response (lines 143-163).  `asnDegree =
none` models a node whose `"asnDegree"` key is absent altogether. -/
structure NodeData where
  asn : String
  asnName : String
  rank : Option Nat
  organization : Option Organization
  asnDegree : Option RawDegree
deriving DecidableEq, Repr

/-- Lines 173-179: the degree normalization applied before a node is
written into the entity cache. -/
def normalizeNode (n : NodeData) : NodeData :=
  { n with asnDegree := n.asnDegree.map normalizeDegree }

/-- The `members` sub-record of an organization response (lines 410-414). -/
structure OrgMembers where
  numberAsns : Option Nat
  numberAsnsSeen : Option Nat
  asns_totalCount : Int
  asns_edges : List String
deriving DecidableEq, Repr

structure OrgData where
  orgId : String
  orgName : String
  members : OrgMembers
deriving DecidableEq, Repr

/-- `get_neighbor_ases` stores a `{providers, customers, peers}` record in
`neighbors_cache` (line 470), while `get_all_siblings` stores a
`(total_cnt, siblings)` tuple in the same dict (line 436); a dynamically
typed cache value covers both shapes of the Python values. -/
inductive NeighborVal where
  | buckets (providers customers peers : List String)
  | pair (total : Int) (siblings : List String)
deriving DecidableEq, Repr

/-- The remote ASRank GraphQL service, as an oracle fixed for a session:
`datasets` backs the two dataset queries of `init_cache`; `asnData` backs
the per-ASN nodes of the `asns` batch query; `linkRel` backs `asnLink`
(outer `none` = link record is `null`, inner `Option` = the `relationship`
field); `cone` backs `asnCone`; `orgData` backs `organization`;
`neighborLinks` backs the `asnLinks` edges, as `(asn1.asn, relationship)`
pairs. -/
structure Remote where
  datasets : List Nat
  asnData : String → Option NodeData
  linkRel : String → String → Option (Option String)
  cone : String → Option (List String)
  orgData : String → Option OrgData
  neighborLinks : String → Option (List (String × String))

/-- The mutable fields of the `AsRank` object (lines 25-40). -/
structure SessionState where
  data_ts : Nat
  cache : List (PyKey × Option NodeData)
  cone_cache : List (String × List String)
  neighbors_cache : List (String × NeighborVal)
  siblings_cache : List (String × (Int × List String))
  organization_cache : List (String × Option OrgData)
  queries_sent : Nat
deriving DecidableEq, Repr

/-- A freshly initialized session pinned to dataset date `ts`. -/
def mkSession (ts : Nat) : SessionState := ⟨ts, [], [], [], [], [], 0⟩

/-- Line 62: `self.queries_sent += 1`, done once per `_send_request`. -/
def bumpQueries (st : SessionState) : SessionState :=
  { st with queries_sent := st.queries_sent + 1 }

/-- `"2000-01-01"`, the hard-coded `dateStart` of the first dataset query
(line 85). -/
def dateStart2000 : Nat := 20000101

/-- Server answer to the first dataset query (lines 83-94): datasets with
`dateStart ≤ date ≤ dateEnd`, sorted by `-date`, `first:1`. -/
def datasetsBefore (R : Remote) (ts : Nat) : Option Nat :=
  (R.datasets.filter (fun d => decide (dateStart2000 ≤ d ∧ d ≤ ts))).max?

/-- Server answer to the second dataset query (lines 105-117): datasets
with `ts ≤ date`, sorted by `date`, `first:1`. -/
def datasetsAfter (R : Remote) (ts : Nat) : Option Nat :=
  (R.datasets.filter (fun d => decide (ts ≤ d))).min?

/-- Observable outcome of a successful `init_cache`: the pinned dataset
date, whether the best-effort-fallback warning was logged, and how many
requests were sent. -/
structure InitResult where
  data_ts : Nat
  warned : Bool
  queries_sent : Nat
deriving DecidableEq, Repr

/-- The message of the `ValueError` raised at line 123. -/
def noDatasetMsg : String := "no datasets from ASRank available to use for tagging"

/-- Lines 65-123 (`init_cache`): resolve and pin the dataset date for the
session; `raise ValueError(...)` becomes the `Except.error` branch. -/
def init_cache (R : Remote) (ts : Nat) : Except String InitResult :=
  match datasetsBefore R ts with
  | some d => .ok ⟨d, false, 1⟩
  | none =>
    match datasetsAfter R ts with
    | some d => .ok ⟨d, true, 2⟩
    | none => .error noDatasetMsg

/-- Lines 132-135: successive `n`-sized chunks, Python
`lst[i:i+n] for i in range(0, len(lst), n)`.  (The code only ever calls
this with `n = 100`; Python raises on `n = 0`, which this model maps to an
empty chunk list instead.) -/
def chunks {α : Type} (l : List α) (n : Nat) : List (List α) :=
  (List.range ((l.length + n - 1) / n)).map (fun i => (l.drop (i * n)).take n)

/-- Lines 170-180: write one (normalized) response node into the entity
cache unless its ASN is already present. -/
def processNode (st : SessionState) (node : NodeData) : SessionState :=
  if dmem st.cache (.pstr node.asn) then st
  else { st with cache := dset st.cache (.pstr node.asn) (some (normalizeNode node)) }

/-- Lines 181-183: a requested ASN still uncached after the response is
remembered as the confirmed negative `None`. -/
def markMissing (st : SessionState) (k : PyKey) : SessionState :=
  if dmem st.cache k then st
  else { st with cache := dset st.cache k none }

/-- One iteration of the chunk loop at line 137: one request (lines
139-168), then the response nodes, then the missing markers. -/
def queryChunk (R : Remote) (st : SessionState) (chunk : List PyKey) : SessionState :=
  let st1 := bumpQueries st
  let nodes := chunk.filterMap (fun k => R.asnData k.strOf)
  let st2 := nodes.foldl processNode st1
  chunk.foldl markMissing st2

/-- Lines 125-187 (`_query_asrank_for_asns`): the batch query engine, the
spec's `ensure_cached`. -/
def _query_asrank_for_asns (R : Remote) (asns : List PyKey) (chunk_size : Nat)
    (st : SessionState) : SessionState :=
  let asns' := asns.map (fun k => PyKey.pstr k.strOf)
  let asns_needed := asns'.filter (fun k => !dmem st.cache k)
  if asns_needed.isEmpty then st
  else (chunks asns_needed chunk_size).foldl (queryChunk R) st

/-- Lines 193-207 (`are_siblings`).  The list comprehension at line 201
indexes the cache with the raw arguments, so a missing key is a
`KeyError`; a `None` organization is a `TypeError`, caught as `False`. -/
def are_siblings (R : Remote) (asn1 asn2 : PyKey) (st : SessionState) :
    SessionState × Except PyErr Bool :=
  let st := _query_asrank_for_asns R [asn1, asn2] 100 st
  match dget st.cache asn1, dget st.cache asn2 with
  | none, _ => (st, .error .keyError)
  | _, none => (st, .error .keyError)
  | some none, some _ => (st, .ok false)
  | some _, some none => (st, .ok false)
  | some (some n1), some (some n2) =>
    match n1.organization, n2.organization with
    | some o1, some o2 => (st, .ok (decide (o1.orgId = o2.orgId)))
    | _, _ => (st, .ok false)

/-- Lines 209-225 (`get_organization`): raw-argument cache projection. -/
def get_organization (R : Remote) (asn : PyKey) (st : SessionState) :
    SessionState × Except PyErr (Option Organization) :=
  let st := _query_asrank_for_asns R [asn] 100 st
  match dget st.cache asn with
  | none => (st, .error .keyError)
  | some none => (st, .ok none)
  | some (some n) => (st, .ok n.organization)

/-- Lines 227-240 (`get_registered_country`): the raw-argument lookup at
line 232 sits outside the `try`, so a missing key is a `KeyError`; a
`None` organization or country is a `TypeError`, caught as `None`. -/
def get_registered_country (R : Remote) (asn : PyKey) (st : SessionState) :
    SessionState × Except PyErr (Option String) :=
  let st := _query_asrank_for_asns R [asn] 100 st
  match dget st.cache asn with
  | none => (st, .error .keyError)
  | some none => (st, .ok none)
  | some (some n) =>
    match n.organization with
    | none => (st, .ok none)
    | some o =>
      match o.country with
      | none => (st, .ok none)
      | some c => (st, .ok c.iso)

/-- Lines 246-266 (`get_degree`): raw-argument cache projection of
`"asnDegree"`; a cached node without that key is a `KeyError`. -/
def get_degree (R : Remote) (asn : PyKey) (st : SessionState) :
    SessionState × Except PyErr (Option RawDegree) :=
  let st := _query_asrank_for_asns R [asn] 100 st
  match dget st.cache asn with
  | none => (st, .error .keyError)
  | some none => (st, .ok none)
  | some (some n) =>
    match n.asnDegree with
    | none => (st, .error .keyError)
    | some d => (st, .ok (some d))

/-- Lines 313-329: the mapping from the raw `asnLink` response to the
relationship string returned to the caller. -/
def classifyRel (resp : Option (Option String)) : Option String :=
  match resp with
  | none => none
  | some relOpt =>
    let rel := relOpt.getD ""
    if rel = "provider" then some "c-p"
    else if rel = "customer" then some "p-c"
    else if rel = "peer" then some "p-p"
    else none

/-- Lines 291-329 (`get_relationship`): one direct pairwise link query. -/
def get_relationship (R : Remote) (asn0 asn1 : String) (st : SessionState) :
    SessionState × Option String :=
  (bumpQueries st, classifyRel (R.linkRel asn0 asn1))

/-- Lines 268-289 (`is_sole_provider`): `and` short-circuits, so the link
query only happens when the degree test passes. -/
def is_sole_provider (R : Remote) (asn_pro asn_cust : PyKey) (st : SessionState) :
    SessionState × Except PyErr Bool :=
  match get_degree R asn_cust st with
  | (st, .error e) => (st, .error e)
  | (st, .ok none) => (st, .ok false)
  | (st, .ok (some d)) =>
    if d.provider = some 1 ∧ d.peer = some 0 then
      let (st, rel) := get_relationship R asn_pro.strOf asn_cust.strOf st
      (st, .ok (decide (rel = some "p-c")))
    else (st, .ok false)

/-- Lines 331-360 (`in_customer_cone`).  Note line 356-357: a `null` cone
response returns `False` without being cached. -/
def in_customer_cone (R : Remote) (asn0 asn1 : String) (st : SessionState) :
    SessionState × Bool :=
  match dget st.cone_cache asn1 with
  | some s => (st, decide (asn0 ∈ s))
  | none =>
    let st := bumpQueries st
    match R.cone asn1 with
    | none => (st, false)
    | some l =>
      let s := l.dedup
      ({ st with cone_cache := dset st.cone_cache asn1 s }, decide (asn0 ∈ s))

/-- Lines 379-437 (`get_all_siblings`).  Line 387 stringifies the
argument; line 388 reads the memo from `siblings_cache`, but line 436
writes the result into `neighbors_cache`. -/
def get_all_siblings (R : Remote) (asn : PyKey) (skip_asrank_call : Bool)
    (st : SessionState) : SessionState × (Int × List String) :=
  let a := asn.strOf
  match dget st.siblings_cache a with
  | some v => (st, v)
  | none =>
    let st := if skip_asrank_call then st else _query_asrank_for_asns R [.pstr a] 100 st
    match dget st.cache (.pstr a) with
    | none => (st, (0, []))
    | some none => (st, (0, []))
    | some (some info) =>
      match info.organization with
      | none => (st, (0, []))
      | some org =>
        let orgId := org.orgId
        let (data, st) :=
          match dget st.organization_cache orgId with
          | some d => (d, st)
          | none =>
            let st := bumpQueries st
            let d := R.orgData orgId
            (d, { st with organization_cache := dset st.organization_cache orgId d })
        match data with
        | none => (st, (0, []))
        | some od =>
          let total : Int := od.members.asns_totalCount
          let sibs := od.members.asns_edges.dedup
          let (total, sibs) :=
            if a ∈ sibs then (total - 1, sibs.erase a) else (total, sibs)
          ({ st with neighbors_cache := dset st.neighbors_cache a (.pair total sibs) },
           (total, sibs))

/-- Lines 466-469: bucket the link edges by pluralized relationship label;
an unrecognized label indexes a missing dict key, a `KeyError`. -/
def bucketLinks : List (String × String) → List String → List String → List String →
    Except PyErr (List String × List String × List String)
  | [], ps, cs, prs => .ok (ps, cs, prs)
  | (nasn, rel) :: rest, ps, cs, prs =>
    if rel = "provider" then bucketLinks rest (ps ++ [nasn]) cs prs
    else if rel = "customer" then bucketLinks rest ps (cs ++ [nasn]) prs
    else if rel = "peer" then bucketLinks rest ps cs (prs ++ [nasn])
    else .error .keyError

/-- Lines 439-471 (`get_neighbor_ases`).  A `null` response returns the
empty buckets without caching them (lines 464-465). -/
def get_neighbor_ases (R : Remote) (asn : String) (st : SessionState) :
    SessionState × Except PyErr NeighborVal :=
  match dget st.neighbors_cache asn with
  | some v => (st, .ok v)
  | none =>
    let st := bumpQueries st
    match R.neighborLinks asn with
    | none => (st, .ok (.buckets [] [] []))
    | some links =>
      match bucketLinks links [] [] [] with
      | .error e => (st, .error e)
      | .ok (ps, cs, prs) =>
        let v := NeighborVal.buckets ps cs prs
        ({ st with neighbors_cache := dset st.neighbors_cache asn v }, .ok v)

/-- Lines 473-486 (`get_asrank_for_asns`): stringify, batch-cache, then
project with `self.cache.get(asn, None)`. -/
def get_asrank_for_asns (R : Remote) (asn_lst : List PyKey) (st : SessionState) :
    SessionState × List (PyKey × Option NodeData) :=
  let lst := asn_lst.map (fun k => PyKey.pstr k.strOf)
  let st := _query_asrank_for_asns R lst 100 st
  (st, lst.foldl (fun res a => dset res a ((dget st.cache a).getD none)) [])

/-- The property the spec asserts of every stored degree record: all six
numeric sub-fields present. -/
def DegreeSixPresent (d : RawDegree) : Prop :=
  d.provider.isSome = true ∧ d.peer.isSome = true ∧ d.customer.isSome = true ∧
  d.total.isSome = true ∧ d.transit.isSome = true ∧ d.sibling.isSome = true

/-- The property the code actually enforces at cache-write time: the four
fields touched by lines 175-178 are present. -/
def DegreeFourNormalized (d : RawDegree) : Prop :=
  d.provider.isSome = true ∧ d.peer.isSome = true ∧ d.customer.isSome = true ∧
  d.sibling.isSome = true

/-- Every descriptor in an entity cache that carries a degree record has
the four normalized fields present. -/
def CacheDegreesNormalized (cch : List (PyKey × Option NodeData)) : Prop :=
  ∀ k n d, dget cch k = some (some n) → n.asnDegree = some d → DegreeFourNormalized d

/-- The symmetry assumed of the remote link oracle: it reports `provider`
for `(a,b)` exactly when it reports `customer` for `(b,a)`, and `peer` and
absence symmetrically. -/
def LinkSym (R : Remote) : Prop :=
  ∀ a b : String,
    (R.linkRel a b = some (some "provider") ↔ R.linkRel b a = some (some "customer")) ∧
    (R.linkRel a b = some (some "peer") ↔ R.linkRel b a = some (some "peer")) ∧
    (R.linkRel a b = none ↔ R.linkRel b a = none)

/-! ### Concrete remotes used by counterexamples and witnesses -/

/-- A remote with no data at all. -/
def emptyRemote : Remote :=
  { datasets := []
  , asnData := fun _ => none
  , linkRel := fun _ _ => none
  , cone := fun _ => none
  , orgData := fun _ => none
  , neighborLinks := fun _ => none }

/-- A remote whose only dataset is dated before 2000-01-01. -/
def preMillenniumRemote : Remote := { emptyRemote with datasets := [19990615] }

/-- A remote that has a customer-cone record for AS 64501. -/
def coneRemote : Remote :=
  { emptyRemote with
      cone := fun s => if s = "64501" then some ["64501", "64500"] else none }

/-- A remote with a single provider-customer link: 64496 is the provider
of 64497. -/
def pcLinkRemote : Remote :=
  { emptyRemote with linkRel := fun a b =>
      if a = "64496" ∧ b = "64497" then some (some "customer")
      else if a = "64497" ∧ b = "64496" then some (some "provider")
      else none }

/-- The descriptor of AS 64503: exactly one provider and no peers. -/
def soleCustNode : NodeData :=
  { asn := "64503", asnName := "cust", rank := some 100, organization := none,
    asnDegree := some ⟨some 1, some 0, some 0, some 1, some 0, some 0⟩ }

/-- A remote where AS 64503 has exactly one provider and no peers, and
64502 is that provider. -/
def soleRemote : Remote :=
  { emptyRemote with
      asnData := fun s => if s = "64503" then some soleCustNode else none
    , linkRel := fun a b =>
        if a = "64502" ∧ b = "64503" then some (some "customer") else none }

/-- A remote whose single entity has a degree record with every sub-field
`null`. -/
def partialDegreeRemote : Remote :=
  { emptyRemote with
      asnData := fun s =>
        if s = "64499" then
          some { asn := "64499", asnName := "x", rank := none, organization := none,
                 asnDegree := some ⟨none, none, none, none, none, none⟩ }
        else none }

/-- An AS descriptor whose organization is `org5`. -/
def fiveMemberNode : NodeData :=
  { asn := "64511", asnName := "a", rank := some 1,
    organization := some { orgId := "org5", orgName := "Five", country := none },
    asnDegree := some ⟨some 0, some 0, some 0, some 0, some 0, some 0⟩ }

/-- An organization with five members (64511 among them). -/
def fiveMemberOrg : OrgData :=
  { orgId := "org5", orgName := "Five",
    members := { numberAsns := some 5, numberAsnsSeen := some 5, asns_totalCount := 5,
                 asns_edges := ["64511", "64512", "64513", "64514", "64515"] } }

/-- A session whose entity and organization caches already hold 64511 and
its five-member organization. -/
def fiveMemberState : SessionState :=
  ⟨0, [(.pstr "64511", some fiveMemberNode)], [], [], [],
   [("org5", some fiveMemberOrg)], 0⟩

/-! ### Dictionary lemmas -/

theorem dget_dset_self {κ α : Type} [DecidableEq κ] (d : List (κ × α)) (k : κ) (v : α) :
    dget (dset d k v) k = some v := by
  induction d with
  | nil => simp [dset, dget]
  | cons p rest ih =>
    obtain ⟨k', v'⟩ := p
    by_cases h : k' = k
    · simp [dset, h, dget]
    · simp [dset, h, dget, ih]

theorem dget_dset_ne {κ α : Type} [DecidableEq κ] (d : List (κ × α)) (k k' : κ) (v : α)
    (h : k' ≠ k) : dget (dset d k v) k' = dget d k' := by
  induction d with
  | nil => simp [dset, dget, Ne.symm h]
  | cons p rest ih =>
    obtain ⟨k'', v''⟩ := p
    by_cases h2 : k'' = k
    · subst h2
      simp [dset, dget, Ne.symm h]
    · simp only [dset, if_neg h2]
      by_cases h3 : k'' = k'
      · simp [dget, h3]
      · simp [dget, h3, ih]

theorem dmem_dset_self {κ α : Type} [DecidableEq κ] (d : List (κ × α)) (k : κ) (v : α) :
    dmem (dset d k v) k = true := by
  simp [dmem, dget_dset_self]

theorem dmem_dset_of_mem {κ α : Type} [DecidableEq κ] (d : List (κ × α)) (k k' : κ) (v : α)
    (h : dmem d k' = true) : dmem (dset d k v) k' = true := by
  by_cases hk : k' = k
  · subst hk; exact dmem_dset_self d k' v
  · simpa [dmem, dget_dset_ne d k k' v hk] using h

theorem dget_dset_cases {κ α : Type} [DecidableEq κ] (d : List (κ × α)) (k k' : κ) (v w : α)
    (h : dget (dset d k v) k' = some w) : (k' = k ∧ w = v) ∨ dget d k' = some w := by
  by_cases hk : k' = k
  · subst hk
    rw [dget_dset_self] at h
    exact Or.inl ⟨rfl, (Option.some_injective _ h).symm⟩
  · rw [dget_dset_ne d k k' v hk] at h
    exact Or.inr h

/-! ### Batch engine lemmas -/

theorem processNode_queries (st : SessionState) (n : NodeData) :
    (processNode st n).queries_sent = st.queries_sent := by
  unfold processNode; split <;> rfl

theorem markMissing_queries (st : SessionState) (k : PyKey) :
    (markMissing st k).queries_sent = st.queries_sent := by
  unfold markMissing; split <;> rfl

theorem foldl_processNode_queries (l : List NodeData) (st : SessionState) :
    (l.foldl processNode st).queries_sent = st.queries_sent := by
  induction l generalizing st with
  | nil => rfl
  | cons n rest ih => rw [List.foldl_cons, ih, processNode_queries]

theorem foldl_markMissing_queries (l : List PyKey) (st : SessionState) :
    (l.foldl markMissing st).queries_sent = st.queries_sent := by
  induction l generalizing st with
  | nil => rfl
  | cons k rest ih => rw [List.foldl_cons, ih, markMissing_queries]

theorem queryChunk_queries (R : Remote) (st : SessionState) (chunk : List PyKey) :
    (queryChunk R st chunk).queries_sent = st.queries_sent + 1 := by
  unfold queryChunk
  rw [foldl_markMissing_queries, foldl_processNode_queries]
  rfl

theorem dmem_processNode_mono (st : SessionState) (n : NodeData) (k : PyKey)
    (h : dmem st.cache k = true) : dmem (processNode st n).cache k = true := by
  unfold processNode; split
  · exact h
  · exact dmem_dset_of_mem _ _ _ _ h

theorem dmem_markMissing_mono (st : SessionState) (j k : PyKey)
    (h : dmem st.cache k = true) : dmem (markMissing st j).cache k = true := by
  unfold markMissing; split
  · exact h
  · exact dmem_dset_of_mem _ _ _ _ h

theorem dmem_markMissing_self (st : SessionState) (k : PyKey) :
    dmem (markMissing st k).cache k = true := by
  unfold markMissing; split
  · assumption
  · exact dmem_dset_self _ _ _

theorem dmem_foldl_processNode_mono (l : List NodeData) (st : SessionState) (k : PyKey)
    (h : dmem st.cache k = true) : dmem (l.foldl processNode st).cache k = true := by
  induction l generalizing st with
  | nil => exact h
  | cons n rest ih => exact ih _ (dmem_processNode_mono st n k h)

theorem dmem_foldl_markMissing_mono (l : List PyKey) (st : SessionState) (k : PyKey)
    (h : dmem st.cache k = true) : dmem (l.foldl markMissing st).cache k = true := by
  induction l generalizing st with
  | nil => exact h
  | cons j rest ih => exact ih _ (dmem_markMissing_mono st j k h)

theorem dmem_foldl_markMissing_mem (l : List PyKey) (st : SessionState) (k : PyKey)
    (h : k ∈ l) : dmem (l.foldl markMissing st).cache k = true := by
  induction l generalizing st with
  | nil => cases h
  | cons j rest ih =>
    rw [List.foldl_cons]
    rcases List.mem_cons.mp h with h1 | h2
    · subst h1
      exact dmem_foldl_markMissing_mono rest _ k (dmem_markMissing_self st k)
    · exact ih _ h2

theorem dmem_queryChunk_of_mem (R : Remote) (st : SessionState) (chunk : List PyKey)
    (k : PyKey) (h : k ∈ chunk) : dmem (queryChunk R st chunk).cache k = true := by
  unfold queryChunk
  exact dmem_foldl_markMissing_mem chunk _ k h

theorem chunks_single {α : Type} (l : List α) (n : Nat) (h0 : l ≠ []) (hn : l.length ≤ n) :
    chunks l n = [l] := by
  have hl : 0 < l.length := List.length_pos.mpr h0
  have hdiv : (l.length + n - 1) / n = 1 := by
    apply Nat.div_eq_of_lt_le <;> omega
  have hr : List.range 1 = [0] := rfl
  simp [chunks, hdiv, hr, List.take_of_length_le hn]

theorem query_singleton (R : Remote) (x : PyKey) (st : SessionState) :
    _query_asrank_for_asns R [x] 100 st =
      if dmem st.cache (.pstr x.strOf) then st
      else queryChunk R st [.pstr x.strOf] := by
  unfold _query_asrank_for_asns
  by_cases h : dmem st.cache (.pstr x.strOf) = true
  · simp [h]
  · have h' : dmem st.cache (.pstr x.strOf) = false := by
      simpa using h
    rw [if_neg (by simp [h'])]
    simp only [List.map_cons, List.map_nil, List.filter_cons, h', Bool.not_false,
      if_pos, List.filter_nil]
    rw [chunks_single _ 100 (by simp) (by simp)]
    simp [List.isEmpty]

theorem query_noop (R : Remote) (x : PyKey) (st : SessionState)
    (h : dmem st.cache (.pstr x.strOf) = true) :
    _query_asrank_for_asns R [x] 100 st = st := by
  rw [query_singleton, if_pos h]

theorem query_singleton_mem (R : Remote) (x : PyKey) (st : SessionState) :
    dmem (_query_asrank_for_asns R [x] 100 st).cache (.pstr x.strOf) = true := by
  rw [query_singleton]
  split
  · assumption
  · exact dmem_queryChunk_of_mem R st _ _ (List.mem_singleton.mpr rfl)

/-! ### Claim theorems -/

/-- Claim C3 counterexample: when the remote source has no cone record for
the root, the `False` answer is not memoized, so the repeated
`in_customer_cone` call with the same root issues a second remote query
(the counter reaches 2 from a fresh session). -/
theorem c3_counterexample :
    (in_customer_cone emptyRemote "64500" "64501"
        ((in_customer_cone emptyRemote "64500" "64501" (mkSession 20200701)).1)).1.queries_sent
      = 2 ∧
    (mkSession 20200701).queries_sent = 0 ∧
    (in_customer_cone emptyRemote "64500" "64501" (mkSession 20200701)).2 = false := by
  refine ⟨rfl, rfl, rfl⟩

/-- Claim C3 (amended): a root already present in the cone cache is
answered by a pure membership check with no state change and no remote
call; when the remote has a cone record for an uncached root, the first
call memoizes the full membership set (one remote call) and answers by
membership in it; but when the remote has no cone record, the call returns
`false` after one remote call and caches nothing, so later calls with the
same root query again. -/
theorem c3_cone_memoization :
    (∀ (R : Remote) (a0 root : String) (st : SessionState) (s : List String),
        dget st.cone_cache root = some s →
        in_customer_cone R a0 root st = (st, decide (a0 ∈ s))) ∧
    (∀ (R : Remote) (a0 root : String) (st : SessionState) (l : List String),
        R.cone root = some l → dget st.cone_cache root = none →
        (in_customer_cone R a0 root st).1.queries_sent = st.queries_sent + 1 ∧
        dget (in_customer_cone R a0 root st).1.cone_cache root = some l.dedup ∧
        (in_customer_cone R a0 root st).2 = decide (a0 ∈ l.dedup)) ∧
    (∀ (R : Remote) (a0 root : String) (st : SessionState),
        R.cone root = none → dget st.cone_cache root = none →
        in_customer_cone R a0 root st = (bumpQueries st, false)) := by
  refine ⟨?_, ?_, ?_⟩
  · intro R a0 root st s h
    simp [in_customer_cone, h]
  · intro R a0 root st l hc h
    simp [in_customer_cone, h, hc, bumpQueries, dget_dset_self]
  · intro R a0 root st hc h
    simp [in_customer_cone, h, hc]

/-- Witness for the amended C3: a concrete cone query memoizes and counts
one remote call. -/
theorem c3_cone_memoization_witness :
    (in_customer_cone coneRemote "64500" "64501" (mkSession 0)).1.queries_sent = 1 ∧
    dget (in_customer_cone coneRemote "64500" "64501" (mkSession 0)).1.cone_cache "64501" =
      some (["64501", "64500"].dedup) ∧
    (in_customer_cone coneRemote "64500" "64501" (mkSession 0)).2 =
      decide ("64500" ∈ ["64501", "64500"].dedup) :=
  c3_cone_memoization.2.1 coneRemote "64500" "64501" (mkSession 0) ["64501", "64500"]
    (by decide) (by decide)

/-- Claim C5 counterexample: the first dataset query is bounded below by
the hard-coded `dateStart:"2000-01-01"`, so with a remote whose only
dataset is dated 1999-06-15 and a target of 2020-01-01, `init_cache`
raises even though the remote source does have a dataset before the
target. -/
theorem c5_counterexample :
    init_cache preMillenniumRemote 20200101 = .error noDatasetMsg ∧
    19990615 ∈ preMillenniumRemote.datasets ∧ 19990615 ≤ 20200101 := by
  refine ⟨rfl, by simp [preMillenniumRemote, emptyRemote], by omega⟩

/-- Claim C5 (amended): `init_cache` pins the most recent dataset dated
between 2000-01-01 and the target when one exists (no warning, one
request); otherwise it pins the earliest dataset dated at-or-after the
target when one exists (with a warning, two requests); and it raises the
`ValueError` if and only if the remote has no dataset in the range
[2000-01-01, target] and none at-or-after the target — a dataset dated
before 2000-01-01 does not prevent the failure. -/
theorem c5_dataset_resolution (R : Remote) (ts : Nat) :
    (init_cache R ts = .error noDatasetMsg ↔
      (∀ d ∈ R.datasets, ¬(dateStart2000 ≤ d ∧ d ≤ ts)) ∧
      (∀ d ∈ R.datasets, ¬ts ≤ d)) ∧
    (∀ res, init_cache R ts = .ok res → res.warned = false →
      res.data_ts ∈ R.datasets ∧ dateStart2000 ≤ res.data_ts ∧ res.data_ts ≤ ts ∧
      res.queries_sent = 1 ∧
      ∀ d ∈ R.datasets, dateStart2000 ≤ d → d ≤ ts → d ≤ res.data_ts) ∧
    (∀ res, init_cache R ts = .ok res → res.warned = true →
      res.data_ts ∈ R.datasets ∧ ts ≤ res.data_ts ∧ res.queries_sent = 2 ∧
      (∀ d ∈ R.datasets, ts ≤ d → res.data_ts ≤ d) ∧
      (∀ d ∈ R.datasets, ¬(dateStart2000 ≤ d ∧ d ≤ ts))) := by
  have hbe : datasetsBefore R ts = none ↔
      ∀ d ∈ R.datasets, ¬(dateStart2000 ≤ d ∧ d ≤ ts) := by
    rw [datasetsBefore, List.max?_eq_none_iff, List.filter_eq_nil_iff]
    simp
  have hae : datasetsAfter R ts = none ↔ ∀ d ∈ R.datasets, ¬ts ≤ d := by
    rw [datasetsAfter, List.min?_eq_none_iff, List.filter_eq_nil_iff]
    simp
  refine ⟨?_, ?_, ?_⟩
  · rcases hB : datasetsBefore R ts with _ | d
    · rcases hA : datasetsAfter R ts with _ | d'
      · simp only [init_cache, hB, hA]
        exact ⟨fun _ => ⟨hbe.mp hB, hae.mp hA⟩, fun _ => trivial⟩
      · simp only [init_cache, hB, hA]
        constructor
        · intro h; cases h
        · rintro ⟨-, h2⟩
          rw [← hae] at h2
          rw [h2] at hA
          cases hA
    · simp only [init_cache, hB]
      constructor
      · intro h; cases h
      · rintro ⟨h1, -⟩
        rw [← hbe] at h1
        rw [h1] at hB
        cases hB
  · intro res hok hw
    rcases hB : datasetsBefore R ts with _ | d
    · rcases hA : datasetsAfter R ts with _ | d'
      · simp only [init_cache, hB, hA] at hok
        cases hok
      · simp only [init_cache, hB, hA] at hok
        cases hok
        cases hw
    · simp only [init_cache, hB] at hok
      cases hok
      rw [datasetsBefore, List.max?_eq_some_iff'] at hB
      obtain ⟨hmem, hmax⟩ := hB
      rw [List.mem_filter] at hmem
      obtain ⟨hd, hcond⟩ := hmem
      have hcond' : dateStart2000 ≤ d ∧ d ≤ ts := by simpa using hcond
      refine ⟨hd, hcond'.1, hcond'.2, rfl, ?_⟩
      intro e he h1 h2
      exact hmax e (List.mem_filter.mpr ⟨he, by simpa using And.intro h1 h2⟩)
  · intro res hok hw
    rcases hB : datasetsBefore R ts with _ | d
    · rcases hA : datasetsAfter R ts with _ | d'
      · simp only [init_cache, hB, hA] at hok
        cases hok
      · simp only [init_cache, hB, hA] at hok
        cases hok
        rw [datasetsAfter, List.min?_eq_some_iff'] at hA
        obtain ⟨hmem, hmin⟩ := hA
        rw [List.mem_filter] at hmem
        obtain ⟨hd, hcond⟩ := hmem
        refine ⟨hd, by simpa using hcond, rfl, ?_, hbe.mp hB⟩
        intro e he h1
        exact hmin e (List.mem_filter.mpr ⟨he, by simpa using h1⟩)
    · simp only [init_cache, hB] at hok
      cases hok
      cases hw

/-- Witness for the amended C5: with datasets 2020-06-01 and 2020-07-01
and target 2020-07-02, the resolver pins 2020-07-01 without warning and
with a single request (the dates of the repository's own test). -/
theorem c5_dataset_resolution_witness :
    ({ emptyRemote with datasets := [20200601, 20200701] } : Remote).datasets =
      [20200601, 20200701] ∧
    (20200701 : Nat) ∈ [20200601, 20200701] ∧ dateStart2000 ≤ 20200701 ∧
    (init_cache { emptyRemote with datasets := [20200601, 20200701] } 20200702 =
      .ok ⟨20200701, false, 1⟩ ∧
    ∀ d ∈ ({ emptyRemote with datasets := [20200601, 20200701] } : Remote).datasets,
      dateStart2000 ≤ d → d ≤ 20200702 → d ≤ 20200701) := by
  refine ⟨rfl, by decide, by decide, rfl, ?_⟩
  have h := (c5_dataset_resolution
      { emptyRemote with datasets := [20200601, 20200701] } 20200702).2.1
      ⟨20200701, false, 1⟩ rfl rfl
  exact h.2.2.2.2

theorem classifyRel_eq_cp (u : Option (Option String)) :
    classifyRel u = some "c-p" ↔ u = some (some "provider") := by
  rcases u with _ | (_ | r)
  · simp [classifyRel]
  · simp [classifyRel]
  · simp only [classifyRel, Option.getD_some]
    split_ifs with h1 h2 h3
    · subst h1; decide
    · subst h2; decide
    · subst h3; decide
    · simp [h1]

theorem classifyRel_eq_pc (u : Option (Option String)) :
    classifyRel u = some "p-c" ↔ u = some (some "customer") := by
  rcases u with _ | (_ | r)
  · simp [classifyRel]
  · simp [classifyRel]
  · simp only [classifyRel, Option.getD_some]
    split_ifs with h1 h2 h3
    · subst h1; decide
    · subst h2; decide
    · subst h3; decide
    · simp [h2]

theorem classifyRel_eq_pp (u : Option (Option String)) :
    classifyRel u = some "p-p" ↔ u = some (some "peer") := by
  rcases u with _ | (_ | r)
  · simp [classifyRel]
  · simp [classifyRel]
  · simp only [classifyRel, Option.getD_some]
    split_ifs with h1 h2 h3
    · subst h1; decide
    · subst h2; decide
    · subst h3; decide
    · simp [h3]

theorem classifyRel_eq_none (u : Option (Option String)) :
    classifyRel u = none ↔
      u ≠ some (some "provider") ∧ u ≠ some (some "customer") ∧
      u ≠ some (some "peer") := by
  rcases u with _ | (_ | r)
  · simp [classifyRel]
  · simp [classifyRel]
  · simp only [classifyRel, Option.getD_some]
    split_ifs with h1 h2 h3
    · subst h1; decide
    · subst h2; decide
    · subst h3; decide
    · simp [h1, h2, h3]

/-- Claim C7: `get_relationship` maps the remote link label to the
caller's perspective (`provider` to `"c-p"`, `customer` to `"p-c"`,
`peer` to `"p-p"`, no link or any unrecognized label to `null`), and
under a symmetric link oracle the two directions are always
complementary: `"p-c"` pairs with `"c-p"`, `"p-p"` mirrors itself, and
`null` stays `null` in both directions. -/
theorem c7_relationship_complementary (R : Remote) (h : LinkSym R) (a b : String)
    (st st' : SessionState) :
    (R.linkRel a b = some (some "provider") → (get_relationship R a b st).2 = some "c-p") ∧
    (R.linkRel a b = some (some "customer") → (get_relationship R a b st).2 = some "p-c") ∧
    (R.linkRel a b = some (some "peer") → (get_relationship R a b st).2 = some "p-p") ∧
    (R.linkRel a b = none → (get_relationship R a b st).2 = none) ∧
    (∀ r : Option String, R.linkRel a b = some r → r.getD "" ≠ "provider" →
      r.getD "" ≠ "customer" → r.getD "" ≠ "peer" →
      (get_relationship R a b st).2 = none) ∧
    ((get_relationship R a b st).2 = some "p-c" ↔
      (get_relationship R b a st').2 = some "c-p") ∧
    ((get_relationship R a b st).2 = some "c-p" ↔
      (get_relationship R b a st').2 = some "p-c") ∧
    ((get_relationship R a b st).2 = some "p-p" ↔
      (get_relationship R b a st').2 = some "p-p") ∧
    ((get_relationship R a b st).2 = none ↔ (get_relationship R b a st').2 = none) := by
  have e1 : (get_relationship R a b st).2 = classifyRel (R.linkRel a b) := rfl
  have e2 : (get_relationship R b a st').2 = classifyRel (R.linkRel b a) := rfl
  obtain ⟨hab1, hab2, hab3⟩ := h a b
  obtain ⟨hba1, hba2, hba3⟩ := h b a
  refine ⟨?_, ?_, ?_, ?_, ?_, ?_, ?_, ?_, ?_⟩
  · intro hh; rw [e1, hh]; rfl
  · intro hh; rw [e1, hh]; rfl
  · intro hh; rw [e1, hh]; rfl
  · intro hh; rw [e1, hh]; rfl
  · intro r hh h1 h2 h3
    rw [e1, hh]
    simp [classifyRel, h1, h2, h3]
  · rw [e1, e2, classifyRel_eq_pc, classifyRel_eq_cp]
    exact hba1.symm
  · rw [e1, e2, classifyRel_eq_cp, classifyRel_eq_pc]
    exact hab1
  · rw [e1, e2, classifyRel_eq_pp, classifyRel_eq_pp]
    exact hab2
  · rw [e1, e2, classifyRel_eq_none, classifyRel_eq_none]
    constructor
    · rintro ⟨h1, h2, h3⟩
      exact ⟨fun hv => h2 (hba1.mp hv), fun hv => h1 (hab1.mpr hv), fun hv => h3 (hba2.mp hv)⟩
    · rintro ⟨h1, h2, h3⟩
      exact ⟨fun hu => h2 (hab1.mp hu), fun hu => h1 (hba1.mpr hu), fun hu => h3 (hab2.mp hu)⟩

theorem pcLinkRemote_sym : LinkSym pcLinkRemote := by
  intro a b
  refine ⟨?_, ?_, ?_⟩ <;>
    · simp only [pcLinkRemote]
      split_ifs <;> simp_all

/-- Witness for C7: the symmetric oracle hypothesis is satisfiable and
gives a concrete complementary pair. -/
theorem c7_relationship_complementary_witness :
    ((get_relationship pcLinkRemote "64496" "64497" (mkSession 0)).2 = some "p-c" ↔
      (get_relationship pcLinkRemote "64497" "64496" (mkSession 0)).2 = some "c-p") ∧
    (get_relationship pcLinkRemote "64496" "64497" (mkSession 0)).2 = some "p-c" :=
  ⟨(c7_relationship_complementary pcLinkRemote pcLinkRemote_sym "64496" "64497"
      (mkSession 0) (mkSession 0)).2.2.2.2.2.1, by decide⟩

/-- Claim C8: whenever the degree lookup for the customer succeeds,
`is_sole_provider(p, c)` returns a boolean that is `true` iff `c`'s degree
record exists with exactly `provider == 1` and `peer == 0` and the
pairwise link query classifies `(p, c)` as `"p-c"`; in particular it is
`false` when the degree is `null` or `provider != 1`. -/
theorem c8_is_sole_provider (R : Remote) (p c : PyKey) (st st1 : SessionState)
    (dOpt : Option RawDegree) (h : get_degree R c st = (st1, .ok dOpt)) :
    ∃ st2 b, is_sole_provider R p c st = (st2, .ok b) ∧
      (b = true ↔
        (∃ d, dOpt = some d ∧ d.provider = some 1 ∧ d.peer = some 0) ∧
        (get_relationship R p.strOf c.strOf st1).2 = some "p-c") := by
  rcases dOpt with _ | d
  · refine ⟨st1, false, ?_, by simp⟩
    unfold is_sole_provider
    rw [h]
  · have hrel : is_sole_provider R p c st =
        if d.provider = some 1 ∧ d.peer = some 0 then
          (bumpQueries st1,
           .ok (decide ((get_relationship R p.strOf c.strOf st1).2 = some "p-c")))
        else (st1, .ok false) := by
      unfold is_sole_provider
      rw [h]
      rfl
    rw [hrel]
    by_cases hd : d.provider = some 1 ∧ d.peer = some 0
    · rw [if_pos hd]
      refine ⟨_, _, rfl, ?_⟩
      simp only [decide_eq_true_eq]
      constructor
      · intro hr
        exact ⟨⟨d, rfl, hd.1, hd.2⟩, hr⟩
      · rintro ⟨-, hr⟩
        exact hr
    · rw [if_neg hd]
      refine ⟨st1, false, rfl, ?_⟩
      constructor
      · intro hb
        cases hb
      · rintro ⟨⟨d', hdd, h1, h2⟩, -⟩
        cases hdd
        exact absurd ⟨h1, h2⟩ hd

/-- Witness for C8 at a concrete sole-provider configuration. -/
theorem c8_is_sole_provider_witness :
    ∃ st2 b,
      is_sole_provider soleRemote (.pstr "64502") (.pstr "64503") (mkSession 0) =
        (st2, .ok b) ∧
      (b = true ↔
        (∃ d, (some (⟨some 1, some 0, some 0, some 1, some 0, some 0⟩ : RawDegree) = some d ∧
          d.provider = some 1 ∧ d.peer = some 0)) ∧
        (get_relationship soleRemote (PyKey.pstr "64502").strOf (PyKey.pstr "64503").strOf
          (get_degree soleRemote (.pstr "64503") (mkSession 0)).1).2 = some "p-c") :=
  c8_is_sole_provider soleRemote (.pstr "64502") (.pstr "64503") (mkSession 0)
    (get_degree soleRemote (.pstr "64503") (mkSession 0)).1
    (some ⟨some 1, some 0, some 0, some 1, some 0, some 0⟩) rfl

/-- Claim C4: the batch query engine is idempotent.  A second
`ensure_cached([x])` leaves the session state untouched, one call issues at
most one remote request, and an identifier already present in the entity
cache (as a descriptor or as `None`) is never re-queried: the whole call is
a no-op then. -/
theorem c4_ensure_cached_idempotent (R : Remote) (st : SessionState) (x : PyKey) :
    _query_asrank_for_asns R [x] 100 (_query_asrank_for_asns R [x] 100 st) =
      _query_asrank_for_asns R [x] 100 st ∧
    (_query_asrank_for_asns R [x] 100 st).queries_sent ≤ st.queries_sent + 1 ∧
    (dmem st.cache (.pstr x.strOf) = true → _query_asrank_for_asns R [x] 100 st = st) ∧
    (∀ asns : List PyKey, dmem st.cache (.pstr x.strOf) = true →
      (PyKey.pstr x.strOf) ∉ (asns.map (fun k => PyKey.pstr k.strOf)).filter
        (fun k => !dmem st.cache k)) := by
  refine ⟨query_noop R x _ (query_singleton_mem R x st), ?_, query_noop R x st, ?_⟩
  · rw [query_singleton]
    split
    · exact Nat.le_succ _
    · rw [queryChunk_queries]
  · intro asns hm hmem
    have hcond := (List.mem_filter.mp hmem).2
    rw [hm] at hcond
    cases hcond

/-- Witness for C4: an identifier already cached (here as `None`) makes
`ensure_cached` a complete no-op. -/
theorem c4_ensure_cached_idempotent_witness :
    dmem ({ mkSession 0 with cache := [(.pstr "64496", none)] } : SessionState).cache
      (.pstr (PyKey.pstr "64496").strOf) = true ∧
    _query_asrank_for_asns emptyRemote [.pstr "64496"] 100
      { mkSession 0 with cache := [(.pstr "64496", none)] } =
      { mkSession 0 with cache := [(.pstr "64496", none)] } :=
  ⟨by decide,
   (c4_ensure_cached_idempotent emptyRemote
      { mkSession 0 with cache := [(.pstr "64496", none)] } (.pstr "64496")).2.2.1
      (by decide)⟩

theorem normalizeDegree_fourNormalized (d : RawDegree) :
    DegreeFourNormalized (normalizeDegree d) := by
  simp [normalizeDegree, DegreeFourNormalized]

theorem cacheDeg_dset (cch : List (PyKey × Option NodeData)) (k : PyKey)
    (v : Option NodeData) (hc : CacheDegreesNormalized cch)
    (hv : ∀ n d, v = some n → n.asnDegree = some d → DegreeFourNormalized d) :
    CacheDegreesNormalized (dset cch k v) := by
  intro k' n d hget hdeg
  rcases dget_dset_cases cch k k' v _ hget with ⟨-, hw⟩ | hold
  · exact hv n d hw.symm hdeg
  · exact hc k' n d hold hdeg

theorem cacheDeg_processNode (st : SessionState) (n : NodeData)
    (hc : CacheDegreesNormalized st.cache) :
    CacheDegreesNormalized (processNode st n).cache := by
  unfold processNode
  split
  · exact hc
  · apply cacheDeg_dset _ _ _ hc
    intro n' d hv hdeg
    have hn' : n' = normalizeNode n := by
      injection hv with hv'
      exact hv'.symm
    subst hn'
    rw [normalizeNode] at hdeg
    rcases Option.map_eq_some'.mp hdeg with ⟨d0, -, hd0⟩
    rw [← hd0]
    exact normalizeDegree_fourNormalized d0

theorem cacheDeg_markMissing (st : SessionState) (k : PyKey)
    (hc : CacheDegreesNormalized st.cache) :
    CacheDegreesNormalized (markMissing st k).cache := by
  unfold markMissing
  split
  · exact hc
  · apply cacheDeg_dset _ _ _ hc
    intro n' d hv
    cases hv

theorem cacheDeg_foldl_processNode (l : List NodeData) (st : SessionState)
    (hc : CacheDegreesNormalized st.cache) :
    CacheDegreesNormalized (l.foldl processNode st).cache := by
  induction l generalizing st with
  | nil => exact hc
  | cons n rest ih => exact ih _ (cacheDeg_processNode st n hc)

theorem cacheDeg_foldl_markMissing (l : List PyKey) (st : SessionState)
    (hc : CacheDegreesNormalized st.cache) :
    CacheDegreesNormalized (l.foldl markMissing st).cache := by
  induction l generalizing st with
  | nil => exact hc
  | cons k rest ih => exact ih _ (cacheDeg_markMissing st k hc)

theorem cacheDeg_queryChunk (R : Remote) (st : SessionState) (chunk : List PyKey)
    (hc : CacheDegreesNormalized st.cache) :
    CacheDegreesNormalized (queryChunk R st chunk).cache := by
  unfold queryChunk
  exact cacheDeg_foldl_markMissing _ _ (cacheDeg_foldl_processNode _ _ hc)

theorem cacheDeg_foldl_queryChunk (R : Remote) (cs : List (List PyKey))
    (st : SessionState) (hc : CacheDegreesNormalized st.cache) :
    CacheDegreesNormalized (cs.foldl (queryChunk R) st).cache := by
  induction cs generalizing st with
  | nil => exact hc
  | cons c rest ih => exact ih _ (cacheDeg_queryChunk R st c hc)

/-- Claim C2 counterexample: a response node whose degree has every field
`null` is stored with `provider`, `peer`, `customer` and `sibling`
normalized to 0 but with `total` and `transit` still absent, so the
stored degree does not have all six sub-fields present. -/
theorem c2_counterexample :
    dget (_query_asrank_for_asns partialDegreeRemote
        [.pstr "64499"] 100 (mkSession 0)).cache (.pstr "64499") =
      some (some { asn := "64499", asnName := "x", rank := none, organization := none,
                   asnDegree := some ⟨some 0, some 0, some 0, none, none, some 0⟩ }) ∧
    ¬DegreeSixPresent ⟨some 0, some 0, some 0, none, none, some 0⟩ := by
  exact ⟨rfl, by simp [DegreeSixPresent]⟩

/-- Claim C2 (amended): the batch query engine normalizes the `provider`,
`peer`, `customer` and `sibling` sub-fields of every degree record to 0
when missing before storing, so those four are always present in cached
degree records; `total` and `transit` are stored exactly as received and
may remain absent. -/
theorem c2_degree_normalization (R : Remote) (asns : List PyKey) (chunk_size : Nat)
    (st : SessionState) (hc : CacheDegreesNormalized st.cache) :
    CacheDegreesNormalized (_query_asrank_for_asns R asns chunk_size st).cache ∧
    ∀ d : RawDegree, (normalizeDegree d).provider = some (d.provider.getD 0) ∧
      (normalizeDegree d).peer = some (d.peer.getD 0) ∧
      (normalizeDegree d).customer = some (d.customer.getD 0) ∧
      (normalizeDegree d).sibling = some (d.sibling.getD 0) ∧
      (normalizeDegree d).total = d.total ∧
      (normalizeDegree d).transit = d.transit := by
  constructor
  · unfold _query_asrank_for_asns
    dsimp only
    split
    · exact hc
    · exact cacheDeg_foldl_queryChunk R _ _ hc
  · intro d
    simp [normalizeDegree]

/-- Witness for the amended C2: from an empty cache, the degree record
stored for 64499 is four-field normalized. -/
theorem c2_degree_normalization_witness :
    CacheDegreesNormalized (_query_asrank_for_asns partialDegreeRemote
        [.pstr "64499"] 100 (mkSession 0)).cache :=
  (c2_degree_normalization _ [.pstr "64499"] 100 (mkSession 0)
    (fun k n d h => by cases h)).1

/-- Claim C6: batching two uncached ASNs, one that exists in the dataset
and one that does not, issues exactly one request; afterwards the existing
one is cached as its (normalized) descriptor and the missing one as
`None`, and `get_asrank_for_asns` returns the two-entry mapping with one
descriptor and one `null`. -/
theorem c6_batch_one_hit_one_miss (R : Remote) (st : SessionState) (kx ky : PyKey)
    (nx : NodeData)
    (hxy : kx.strOf ≠ ky.strOf)
    (hcx : dget st.cache (.pstr kx.strOf) = none)
    (hcy : dget st.cache (.pstr ky.strOf) = none)
    (hRx : R.asnData kx.strOf = some nx)
    (hax : nx.asn = kx.strOf)
    (hRy : R.asnData ky.strOf = none) :
    (get_asrank_for_asns R [kx, ky] st).1.queries_sent = st.queries_sent + 1 ∧
    (get_asrank_for_asns R [kx, ky] st).2 =
      [(.pstr kx.strOf, some (normalizeNode nx)), (.pstr ky.strOf, none)] ∧
    dget (get_asrank_for_asns R [kx, ky] st).1.cache (.pstr kx.strOf) =
      some (some (normalizeNode nx)) ∧
    dget (get_asrank_for_asns R [kx, ky] st).1.cache (.pstr ky.strOf) = some none := by
  obtain ⟨ts, cch, cc, nc, sc, oc, qs⟩ := st
  simp only at hcx hcy
  have hmx : dmem cch (PyKey.pstr kx.strOf) = false := by simp [dmem, hcx]
  have hmy : dmem cch (PyKey.pstr ky.strOf) = false := by simp [dmem, hcy]
  have hne : PyKey.pstr ky.strOf ≠ PyKey.pstr kx.strOf := by
    intro hh
    exact hxy (PyKey.pstr.inj hh).symm
  have hne' : PyKey.pstr kx.strOf ≠ PyKey.pstr ky.strOf := fun hh => hne hh.symm
  have hdy : dmem (dset cch (PyKey.pstr kx.strOf) (some (normalizeNode nx)))
      (PyKey.pstr ky.strOf) = false := by
    simp [dmem, dget_dset_ne _ _ _ _ hne, hcy]
  have e3 : (fun (k : PyKey) => !dmem cch k) (PyKey.pstr kx.strOf) = true := by
    simp [hmx]
  have e4 : (fun (k : PyKey) => !dmem cch k) (PyKey.pstr ky.strOf) = true := by
    simp [hmy]
  have hneed : List.filter (fun k => !dmem cch k)
      [PyKey.pstr kx.strOf, PyKey.pstr ky.strOf] =
      [PyKey.pstr kx.strOf, PyKey.pstr ky.strOf] := by
    simp only [List.filter_cons, List.filter_nil, e3, e4, if_true]
  have hstep1 : _query_asrank_for_asns R [kx, ky] 100 ⟨ts, cch, cc, nc, sc, oc, qs⟩ =
      queryChunk R ⟨ts, cch, cc, nc, sc, oc, qs⟩
        [PyKey.pstr kx.strOf, PyKey.pstr ky.strOf] := by
    unfold _query_asrank_for_asns
    dsimp only
    simp only [List.map_cons, List.map_nil]
    rw [hneed]
    simp only [List.isEmpty_cons, Bool.false_eq_true, if_false]
    rw [chunks_single [PyKey.pstr kx.strOf, PyKey.pstr ky.strOf] 100 (by simp) (by simp)]
    simp only [List.foldl_cons, List.foldl_nil]
  have hfm : List.filterMap (fun k => R.asnData k.strOf)
      [PyKey.pstr kx.strOf, PyKey.pstr ky.strOf] = [nx] := by
    rw [@List.filterMap_cons_some PyKey NodeData (fun k => R.asnData k.strOf)
        (PyKey.pstr kx.strOf) [PyKey.pstr ky.strOf] nx hRx,
      @List.filterMap_cons_none PyKey NodeData (fun k => R.asnData k.strOf)
        (PyKey.pstr ky.strOf) [] hRy, List.filterMap_nil]
  have hpn : processNode (bumpQueries ⟨ts, cch, cc, nc, sc, oc, qs⟩) nx =
      ⟨ts, dset cch (PyKey.pstr kx.strOf) (some (normalizeNode nx)), cc, nc, sc, oc,
        qs + 1⟩ := by
    unfold processNode bumpQueries
    dsimp only
    rw [hax]
    simp [hmx]
  have hm1 : markMissing
      ⟨ts, dset cch (PyKey.pstr kx.strOf) (some (normalizeNode nx)), cc, nc, sc, oc,
        qs + 1⟩ (PyKey.pstr kx.strOf) =
      ⟨ts, dset cch (PyKey.pstr kx.strOf) (some (normalizeNode nx)), cc, nc, sc, oc,
        qs + 1⟩ := by
    unfold markMissing
    dsimp only
    simp [dmem_dset_self]
  have hm2 : markMissing
      ⟨ts, dset cch (PyKey.pstr kx.strOf) (some (normalizeNode nx)), cc, nc, sc, oc,
        qs + 1⟩ (PyKey.pstr ky.strOf) =
      ⟨ts, dset (dset cch (PyKey.pstr kx.strOf) (some (normalizeNode nx)))
        (PyKey.pstr ky.strOf) none, cc, nc, sc, oc, qs + 1⟩ := by
    unfold markMissing
    dsimp only
    simp [hdy]
  have hq : _query_asrank_for_asns R [kx, ky] 100 ⟨ts, cch, cc, nc, sc, oc, qs⟩ =
      ⟨ts, dset (dset cch (PyKey.pstr kx.strOf) (some (normalizeNode nx)))
        (PyKey.pstr ky.strOf) none, cc, nc, sc, oc, qs + 1⟩ := by
    rw [hstep1]
    unfold queryChunk
    dsimp only
    rw [hfm]
    simp only [List.foldl_cons, List.foldl_nil]
    rw [hpn, hm1, hm2]
  have hq2 : _query_asrank_for_asns R [PyKey.pstr kx.strOf, PyKey.pstr ky.strOf] 100
      ⟨ts, cch, cc, nc, sc, oc, qs⟩ =
      ⟨ts, dset (dset cch (PyKey.pstr kx.strOf) (some (normalizeNode nx)))
        (PyKey.pstr ky.strOf) none, cc, nc, sc, oc, qs + 1⟩ := hq
  rw [get_asrank_for_asns]
  dsimp only
  simp only [List.map_cons, List.map_nil, hq2, List.foldl_cons, List.foldl_nil]
  have hgx : dget (dset (dset cch (PyKey.pstr kx.strOf) (some (normalizeNode nx)))
      (PyKey.pstr ky.strOf) none) (PyKey.pstr kx.strOf) = some (some (normalizeNode nx)) := by
    rw [dget_dset_ne _ _ _ _ hne', dget_dset_self]
  have hgy : dget (dset (dset cch (PyKey.pstr kx.strOf) (some (normalizeNode nx)))
      (PyKey.pstr ky.strOf) none) (PyKey.pstr ky.strOf) = some none :=
    dget_dset_self _ _ _
  refine ⟨trivial, ?_, hgx, hgy⟩
  rw [hgx, hgy]
  simp [dset, hne']

/-- Witness for C6: batching existing AS 64503 with missing AS 64504 from
a fresh session gives one request, one descriptor and one `null`. -/
theorem c6_batch_one_hit_one_miss_witness :
    (get_asrank_for_asns soleRemote [.pstr "64503", .pstr "64504"]
        (mkSession 0)).1.queries_sent = (mkSession 0).queries_sent + 1 ∧
    (get_asrank_for_asns soleRemote [.pstr "64503", .pstr "64504"] (mkSession 0)).2 =
      [(.pstr (PyKey.pstr "64503").strOf, some (normalizeNode soleCustNode)),
       (.pstr (PyKey.pstr "64504").strOf, none)] ∧
    dget (get_asrank_for_asns soleRemote [.pstr "64503", .pstr "64504"]
        (mkSession 0)).1.cache (.pstr (PyKey.pstr "64503").strOf) =
      some (some (normalizeNode soleCustNode)) ∧
    dget (get_asrank_for_asns soleRemote [.pstr "64503", .pstr "64504"]
        (mkSession 0)).1.cache (.pstr (PyKey.pstr "64504").strOf) = some none :=
  c6_batch_one_hit_one_miss soleRemote (mkSession 0) (.pstr "64503") (.pstr "64504")
    soleCustNode (by decide) rfl rfl rfl rfl rfl

/-- Claim C9: `get_all_siblings` returns `(0, [])` when the AS is unknown
or its organization is unknown, and on an AS whose organization has 5
members (itself included, all distinct) it returns `total_count == 4` with
a 4-element sibling list that excludes the AS itself. -/
theorem c9_get_all_siblings :
    (∀ (R : Remote) (asn : PyKey) (st : SessionState),
      dget st.siblings_cache asn.strOf = none →
      dget st.cache (.pstr asn.strOf) = some none →
      (get_all_siblings R asn false st).2 = (0, [])) ∧
    (∀ (R : Remote) (asn : PyKey) (st : SessionState) (n : NodeData),
      dget st.siblings_cache asn.strOf = none →
      dget st.cache (.pstr asn.strOf) = some (some n) →
      n.organization = none →
      (get_all_siblings R asn false st).2 = (0, [])) ∧
    (∀ (R : Remote) (asn : PyKey) (st : SessionState) (n : NodeData)
        (org : Organization) (od : OrgData),
      dget st.siblings_cache asn.strOf = none →
      dget st.cache (.pstr asn.strOf) = some (some n) →
      n.organization = some org →
      dget st.organization_cache org.orgId = some (some od) →
      od.members.asns_totalCount = 5 →
      od.members.asns_edges.length = 5 →
      od.members.asns_edges.Nodup →
      asn.strOf ∈ od.members.asns_edges →
      (get_all_siblings R asn false st).2.1 = 4 ∧
      (get_all_siblings R asn false st).2.2.length = 4 ∧
      asn.strOf ∉ (get_all_siblings R asn false st).2.2) := by
  refine ⟨?_, ?_, ?_⟩
  · intro R asn st h1 h2
    have hmem : dmem st.cache (.pstr asn.strOf) = true := by simp [dmem, h2]
    have hq := query_noop R (.pstr asn.strOf) st hmem
    unfold get_all_siblings
    dsimp only
    simp only [h1]
    rw [hq]
    simp [h2]
  · intro R asn st n h1 h2 h3
    have hmem : dmem st.cache (.pstr asn.strOf) = true := by simp [dmem, h2]
    have hq := query_noop R (.pstr asn.strOf) st hmem
    unfold get_all_siblings
    dsimp only
    simp only [h1]
    rw [hq]
    simp [h2, h3]
  · intro R asn st n org od h1 h2 h3 h4 h5 h6 h7 h8
    have hmem : dmem st.cache (.pstr asn.strOf) = true := by simp [dmem, h2]
    have hq := query_noop R (.pstr asn.strOf) st hmem
    have hded : od.members.asns_edges.dedup = od.members.asns_edges :=
      List.dedup_eq_self.mpr h7
    have hmain : (get_all_siblings R asn false st).2 =
        (od.members.asns_totalCount - 1, od.members.asns_edges.erase asn.strOf) := by
      unfold get_all_siblings
      dsimp only
      simp only [h1]
      rw [hq]
      simp [h2, h3, h4]
      rw [hded]
      rw [if_pos h8]
    refine ⟨?_, ?_, ?_⟩
    · rw [hmain]
      dsimp only
      rw [h5]
      decide
    · rw [hmain]
      dsimp only
      rw [List.length_erase_of_mem h8, h6]
    · rw [hmain]
      dsimp only
      simp [List.Nodup.mem_erase_iff h7]

/-- Witness for C9 at the concrete five-member organization. -/
theorem c9_get_all_siblings_witness :
    (get_all_siblings emptyRemote (.pstr "64511") false fiveMemberState).2.1 = 4 ∧
    (get_all_siblings emptyRemote (.pstr "64511") false fiveMemberState).2.2.length = 4 ∧
    (PyKey.pstr "64511").strOf ∉
      (get_all_siblings emptyRemote (.pstr "64511") false fiveMemberState).2.2 :=
  c9_get_all_siblings.2.2 emptyRemote (.pstr "64511") fiveMemberState fiveMemberNode
    { orgId := "org5", orgName := "Five", country := none } fiveMemberOrg
    rfl rfl rfl rfl rfl rfl (by decide) (by decide)

/-- Claim C1 (the code violates the Neighbor Cache invariant):
`get_all_siblings` stores its `(total, siblings)` tuple in
`neighbors_cache` — it checks `siblings_cache` for the memo but writes
`neighbors_cache`, a slip — so after `get_all_siblings("64511")` the call
`get_neighbor_ases("64511")` returns that tuple instead of a
`{providers, customers, peers}` record. -/
theorem c1_neighbor_cache_corrupted :
    (get_neighbor_ases emptyRemote "64511"
        (get_all_siblings emptyRemote (.pstr "64511") false fiveMemberState).1).2 =
      .ok (.pair 4 ["64512", "64513", "64514", "64515"]) ∧
    (∀ ps cs prs, (get_neighbor_ases emptyRemote "64511"
        (get_all_siblings emptyRemote (.pstr "64511") false fiveMemberState).1).2 ≠
      .ok (.buckets ps cs prs)) := by
  have h : (get_neighbor_ases emptyRemote "64511"
      (get_all_siblings emptyRemote (.pstr "64511") false fiveMemberState).1).2 =
      .ok (.pair 4 ["64512", "64513", "64514", "64515"]) := rfl
  refine ⟨h, ?_⟩
  intro ps cs prs hcon
  rw [h] at hcon
  cases hcon

/-! ### Lemmas for C10: the batch engine writes only string keys -/

theorem dget_markMissing_ne (st : SessionState) (j k : PyKey) (hjk : k ≠ j) :
    dget (markMissing st j).cache k = dget st.cache k := by
  unfold markMissing
  split
  · rfl
  · exact dget_dset_ne _ _ _ _ hjk

theorem dget_processNode_non_pstr (st : SessionState) (n : NodeData) (k : PyKey)
    (hk : ∀ s, k ≠ .pstr s) :
    dget (processNode st n).cache k = dget st.cache k := by
  unfold processNode
  split
  · rfl
  · exact dget_dset_ne _ _ _ _ (hk n.asn)

theorem dget_foldl_processNode_non_pstr (l : List NodeData) (st : SessionState)
    (k : PyKey) (hk : ∀ s, k ≠ .pstr s) :
    dget ((l.foldl processNode st)).cache k = dget st.cache k := by
  induction l generalizing st with
  | nil => rfl
  | cons n rest ih => rw [List.foldl_cons, ih, dget_processNode_non_pstr st n k hk]

theorem dget_foldl_markMissing_ne (l : List PyKey) (st : SessionState) (k : PyKey)
    (h : ∀ j ∈ l, k ≠ j) :
    dget ((l.foldl markMissing st)).cache k = dget st.cache k := by
  induction l generalizing st with
  | nil => rfl
  | cons j rest ih =>
    rw [List.foldl_cons, ih _ (fun j' hj' => h j' (List.mem_cons_of_mem j hj')),
      dget_markMissing_ne st j k (h j (List.mem_cons_self j rest))]

theorem dget_queryChunk_non_pstr (R : Remote) (st : SessionState) (chunk : List PyKey)
    (k : PyKey) (hk : ∀ s, k ≠ .pstr s) (hc : ∀ j ∈ chunk, ∃ s, j = .pstr s) :
    dget (queryChunk R st chunk).cache k = dget st.cache k := by
  unfold queryChunk
  rw [dget_foldl_markMissing_ne _ _ _ (fun j hj => by
      rcases hc j hj with ⟨s, rfl⟩
      exact hk s),
    dget_foldl_processNode_non_pstr _ _ _ hk]
  rfl

theorem chunks_mem_of_mem {α : Type} (l : List α) (n : Nat) (c : List α)
    (hc : c ∈ chunks l n) (x : α) (hx : x ∈ c) : x ∈ l := by
  unfold chunks at hc
  rcases List.mem_map.mp hc with ⟨i, -, rfl⟩
  exact List.drop_subset _ _ (List.take_subset _ _ hx)

theorem dget_query_non_pstr (R : Remote) (asns : List PyKey) (cs : Nat)
    (st : SessionState) (k : PyKey) (hk : ∀ s, k ≠ .pstr s) :
    dget (_query_asrank_for_asns R asns cs st).cache k = dget st.cache k := by
  unfold _query_asrank_for_asns
  dsimp only
  split
  · rfl
  · rename_i hemp
    have hall : ∀ j ∈ (asns.map (fun j => PyKey.pstr j.strOf)).filter
        (fun j => !dmem st.cache j), ∃ s, j = .pstr s := by
      intro j hj
      rcases List.mem_map.mp (List.mem_of_mem_filter hj) with ⟨j0, -, rfl⟩
      exact ⟨j0.strOf, rfl⟩
    have hcl : ∀ c ∈ chunks ((asns.map (fun j => PyKey.pstr j.strOf)).filter
        (fun j => !dmem st.cache j)) cs, ∀ j ∈ c, ∃ s, j = .pstr s := by
      intro c hcmem j hj
      exact hall j (chunks_mem_of_mem _ _ _ hcmem j hj)
    clear hall hemp
    generalize chunks ((asns.map (fun j => PyKey.pstr j.strOf)).filter
        (fun j => !dmem st.cache j)) cs = csl at hcl ⊢
    revert hcl
    induction csl generalizing st with
    | nil =>
      intro hcl
      rfl
    | cons c rest ih =>
      intro hcl
      rw [List.foldl_cons,
        ih _ (fun c' hc' j hj => hcl c' (List.mem_cons_of_mem c hc') j hj),
        dget_queryChunk_non_pstr R st c k hk (hcl c (List.mem_cons_self c rest))]

/-- Claim C10: the entity-projection operations index the cache with the
raw argument while the batch engine caches under string keys, so with an
integer argument they raise `KeyError` even though the entity was fetched
(its string key is present afterwards); `get_all_siblings` and
`get_asrank_for_asns` stringify their inputs first, so for them an integer
argument is interchangeable with its string form. -/
theorem c10_integer_keys_raise (R : Remote) (st : SessionState) (n : Nat) (k2 : PyKey)
    (h : dget st.cache (.pint n) = none) :
    (get_degree R (.pint n) st).2 = .error .keyError ∧
    (get_organization R (.pint n) st).2 = .error .keyError ∧
    (get_registered_country R (.pint n) st).2 = .error .keyError ∧
    (are_siblings R (.pint n) k2 st).2 = .error .keyError ∧
    dmem (get_degree R (.pint n) st).1.cache (.pstr (toString n)) = true ∧
    get_all_siblings R (.pint n) false st =
      get_all_siblings R (.pstr (toString n)) false st ∧
    get_asrank_for_asns R [.pint n] st =
      get_asrank_for_asns R [.pstr (toString n)] st := by
  have hnp : ∀ s, (PyKey.pint n) ≠ .pstr s := by
    intro s hcon
    cases hcon
  have h1 : dget (_query_asrank_for_asns R [.pint n] 100 st).cache (.pint n) = none := by
    rw [dget_query_non_pstr R _ _ _ _ hnp, h]
  have h2 : dget (_query_asrank_for_asns R [.pint n, k2] 100 st).cache (.pint n) = none := by
    rw [dget_query_non_pstr R _ _ _ _ hnp, h]
  refine ⟨?_, ?_, ?_, ?_, ?_, rfl, rfl⟩
  · unfold get_degree
    dsimp only
    simp [h1]
  · unfold get_organization
    dsimp only
    simp [h1]
  · unfold get_registered_country
    dsimp only
    simp [h1]
  · unfold are_siblings
    dsimp only
    simp [h2]
  · unfold get_degree
    dsimp only
    simp only [h1]
    exact query_singleton_mem R (.pint n) st

/-- Witness for C10: a fresh session, AS number 701 as an integer. -/
theorem c10_integer_keys_raise_witness :
    (get_degree emptyRemote (.pint 701) (mkSession 0)).2 = .error .keyError ∧
    (get_organization emptyRemote (.pint 701) (mkSession 0)).2 = .error .keyError ∧
    (get_registered_country emptyRemote (.pint 701) (mkSession 0)).2 =
      .error .keyError ∧
    (are_siblings emptyRemote (.pint 701) (.pstr "701") (mkSession 0)).2 =
      .error .keyError ∧
    dmem (get_degree emptyRemote (.pint 701) (mkSession 0)).1.cache
      (.pstr (toString 701)) = true ∧
    get_all_siblings emptyRemote (.pint 701) false (mkSession 0) =
      get_all_siblings emptyRemote (.pstr (toString 701)) false (mkSession 0) ∧
    get_asrank_for_asns emptyRemote [.pint 701] (mkSession 0) =
      get_asrank_for_asns emptyRemote [.pstr (toString 701)] (mkSession 0) :=
  c10_integer_keys_raise emptyRemote (mkSession 0) 701 (.pstr "701") rfl

end PyAsRank
